import Mathlib

/-!
Shallow embedding of the ALVR transport and handshake layer:
`src/alvr/sockets/src/ldc_tcp_socket.rs` (length-delimited stream transport),
`src/alvr/server/src/connection_utils.rs` (server handshake listener) and
`src/alvr/client/src/connection_utils.rs` (client handshake broadcaster).

The operating system and the shared cancellation flag are modelled by an explicit
schedule of `IoEvent`s: each iteration of an interruptible loop consumes one event,
holding the result the socket call returned and the value of the `running` flag at
the check performed right after that call.  Machine integers are `Nat` with explicit
`% 2 ^ 64` where overflow matters; a Rust panic is `none` / `Outcome.panicked`; an
exhausted event schedule (`none` from a loop) models a trace on which the loop is
still running.
-/

/-- Kind of an underlying OS I/O error, as the source classifies `std::io::ErrorKind`:
would-block, interrupted system call, or any other error. -/
inductive ErrKind where
  | wouldBlock
  | interrupted
  | other
deriving DecidableEq, Repr

/-- Result of one underlying socket read or write call: `ok size` or an error. -/
inductive IoRes where
  | ok (size : Nat)
  | err (k : ErrKind)
deriving DecidableEq, Repr

/-- One step of the environment schedule: the socket call result offered to the loop
and the value of the shared `running` flag at the check right after that call. -/
structure IoEvent where
  res : IoRes
  running : Bool
deriving DecidableEq, Repr

/-- Outcome of a call that may panic or (on the modelled trace) never return. -/
inductive Outcome (α : Type) where
  | panicked
  | starved
  | result (a : α)
deriving DecidableEq, Repr

/-- Little-endian bytes of a Rust `u64` (`u64::to_le_bytes`): 8 bytes of `n % 2 ^ 64`. -/
def u64ToLeBytes (n : Nat) : List Nat :=
  [n % 2 ^ 64 % 256, n % 2 ^ 64 / 2 ^ 8 % 256, n % 2 ^ 64 / 2 ^ 16 % 256,
   n % 2 ^ 64 / 2 ^ 24 % 256, n % 2 ^ 64 / 2 ^ 32 % 256, n % 2 ^ 64 / 2 ^ 40 % 256,
   n % 2 ^ 64 / 2 ^ 48 % 256, n % 2 ^ 64 / 2 ^ 56 % 256]

/-- Value of a little-endian byte list (`u64::from_le_bytes` on an 8-byte list). -/
def leBytesToNat : List Nat → Nat
  | [] => 0
  | b :: rest => b + 256 * leBytesToNat rest

/-- Rust `<[u8]>::copy_from_slice`: replaces `dst` by `src` when the lengths match
and panics (`none`) otherwise. -/
def copyFromSlice (dst src : List Nat) : Option (List Nat) :=
  if src.length = dst.length then some src else none

/-- Rust subslice assignment `dst[a..b].copy_from_slice(src)`: panics (`none`) when
the range is out of bounds or the source length differs from the range length. -/
def setRange (dst : List Nat) (a b : Nat) (src : List Nat) : Option (List Nat) :=
  if a ≤ b ∧ b ≤ dst.length ∧ src.length = b - a then
    some (dst.take a ++ src ++ dst.drop b)
  else none

/-- Rust `Vec::resize(n, 0)`: truncate to `n` elements or extend with zeros. -/
def vecResize (l : List Nat) (n : Nat) : List Nat :=
  l.take n ++ List.replicate (n - l.length) 0

/-- Decidable equality on `Except`, needed so concrete runs can be settled by `decide`. -/
instance {ε α : Type} [DecidableEq ε] [DecidableEq α] : DecidableEq (Except ε α) := fun a b =>
  match a, b with
  | .error x, .error y =>
    if h : x = y then .isTrue (by rw [h]) else .isFalse (fun hh => h (by cases hh; rfl))
  | .error _, .ok _ => .isFalse (fun hh => Except.noConfusion hh)
  | .ok _, .error _ => .isFalse (fun hh => Except.noConfusion hh)
  | .ok x, .ok y =>
    if h : x = y then .isTrue (by rw [h]) else .isFalse (fun hh => h (by cases hh; rfl))

/-- Result of `interruptible_write_all`: the returned `StrResult<bool>` (`Except` error
models the `fmt_e!` string error), the bytes actually handed to successful socket
writes in order, and the number of schedule events (loop iterations) consumed. -/
structure WriteResult where
  out : Except ErrKind Bool
  written : List Nat
  used : Nat
deriving DecidableEq, Repr

/-- Embedding of `interruptible_write_all` (ldc_tcp_socket.rs lines 17-46).  Each
iteration performs one socket write: on `Ok(size)` the OS transfers the first
`size` bytes of the current slice (clamped to the slice length).  The `running`
flag is then checked: if cleared the loop returns `Ok(false)`.  Otherwise, a full
write returns `Ok(true)`; a partial write continues with `&buffer[..size]` (as the
source is written); a would-block or interrupted error retries; any other error is
returned as an error. -/
def interruptible_write_all (buffer : List Nat) : List IoEvent → Option WriteResult
  | [] => none
  | e :: evs =>
    match e.res with
    | .ok n =>
      let s := min n buffer.length
      let w := buffer.take s
      if !e.running then some ⟨.ok false, w, 1⟩
      else if s = buffer.length then some ⟨.ok true, w, 1⟩
      else
        match interruptible_write_all (buffer.take s) evs with
        | none => none
        | some r => some ⟨r.out, w ++ r.written, r.used + 1⟩
    | .err k =>
      if !e.running then some ⟨.ok false, [], 1⟩
      else if k = .wouldBlock ∨ k = .interrupted then
        match interruptible_write_all buffer evs with
        | none => none
        | some r => some ⟨r.out, r.written, r.used + 1⟩
      else some ⟨.error k, [], 1⟩

/-- Result of `interruptible_read_all`: the returned `StrResult<bool>`, the final
contents of the destination array, the part of the incoming byte stream not yet
consumed, and the number of schedule events consumed. -/
structure ReadResult where
  out : Except ErrKind Bool
  buffer : List Nat
  rest : List Nat
  used : Nat
deriving DecidableEq, Repr

/-- Loop body of `interruptible_read_all` (ldc_tcp_socket.rs lines 48-77).  `buffer`
is the full destination array, `w` the length of the current window (the source
narrows the window with `&mut buffer[..size]`, so the window always starts at
index 0), and `stream` the bytes the peer has put on the socket, in order.  Each
read transfers `s = min (min n w) stream.length` bytes from the stream into
positions `0..s` of the array; the `running` flag is then checked; `s = w` returns
`Ok(true)`; a partial read continues with window length `s`; transient errors
retry; other errors are returned. -/
def readLoop (buffer : List Nat) (w : Nat) (stream : List Nat) :
    List IoEvent → Option ReadResult
  | [] => none
  | e :: evs =>
    match e.res with
    | .ok n =>
      let s := min (min n w) stream.length
      let buffer' := stream.take s ++ buffer.drop s
      let stream' := stream.drop s
      if !e.running then some ⟨.ok false, buffer', stream', 1⟩
      else if s = w then some ⟨.ok true, buffer', stream', 1⟩
      else
        match readLoop buffer' s stream' evs with
        | none => none
        | some r => some ⟨r.out, r.buffer, r.rest, r.used + 1⟩
    | .err k =>
      if !e.running then some ⟨.ok false, buffer, stream, 1⟩
      else if k = .wouldBlock ∨ k = .interrupted then
        match readLoop buffer w stream evs with
        | none => none
        | some r => some ⟨r.out, r.buffer, r.rest, r.used + 1⟩
      else some ⟨.error k, buffer, stream, 1⟩

/-- Embedding of `interruptible_read_all`: the initial window is the whole array. -/
def interruptible_read_all (buffer stream : List Nat) (evs : List IoEvent) :
    Option ReadResult :=
  readLoop buffer buffer.length stream evs

/-- State of `LdcTcpSender`: the socket is represented by the event schedule passed
to `send`, so only the validity flag remains. -/
structure LdcTcpSender where
  valid : Bool
deriving DecidableEq, Repr

/-- Result of `LdcTcpSender::send`: returned value, validity flag after the call,
bytes handed to the socket, events consumed. -/
structure SendResult where
  out : Except ErrKind Bool
  valid : Bool
  written : List Nat
  used : Nat
deriving DecidableEq, Repr

/-- Embedding of `LdcTcpSender::send` (ldc_tcp_socket.rs lines 96-121).  If the
sender is invalid it returns `Ok(false)` at once.  Otherwise it builds
`prefix = [0; 9]`, sets `prefix[0] = stream_id`, then executes
`prefix.copy_from_slice(&(buffer.len() as u64).to_le_bytes())` — an 8-byte source
copied over the whole 9-byte array, which panics on length mismatch
(`Outcome.panicked`).  Were the copy to succeed, the 9-byte header and then the
payload would be written with `interruptible_write_all`, an interrupted write
marking the sender invalid and returning `Ok(false)`. -/
def LdcTcpSender.send (sender : LdcTcpSender) (stream_id : Nat) (buffer : List Nat)
    (evs : List IoEvent) : Outcome SendResult :=
  if !sender.valid then .result ⟨.ok false, sender.valid, [], 0⟩
  else
    let header0 : List Nat := stream_id :: List.replicate 8 0
    match copyFromSlice header0 (u64ToLeBytes buffer.length) with
    | none => .panicked
    | some header =>
      match interruptible_write_all header evs with
      | none => .starved
      | some r1 =>
        match r1.out with
        | .error e => .result ⟨.error e, sender.valid, r1.written, r1.used⟩
        | .ok false => .result ⟨.ok false, false, r1.written, r1.used⟩
        | .ok true =>
          match interruptible_write_all buffer (evs.drop r1.used) with
          | none => .starved
          | some r2 =>
            match r2.out with
            | .error e =>
              .result ⟨.error e, sender.valid, r1.written ++ r2.written, r1.used + r2.used⟩
            | .ok false =>
              .result ⟨.ok false, false, r1.written ++ r2.written, r1.used + r2.used⟩
            | .ok true =>
              .result ⟨.ok true, true, r1.written ++ r2.written, r1.used + r2.used⟩

/-- State of `LdcTcpReceiver`: validity flag and the per-stream buffer pool
(`HashMap<u8, VecDeque<Vec<u8>>>`), as an association list. -/
structure LdcTcpReceiver where
  valid : Bool
  buffers : List (Nat × List (List Nat))
deriving DecidableEq, Repr

/-- `self.buffers.entry(k).or_default().pop_front()`: inserts an empty queue for `k`
if absent, pops the front buffer if any, and returns it with the updated pool. -/
def poolPop (pool : List (Nat × List (List Nat))) (k : Nat) :
    Option (List Nat) × List (Nat × List (List Nat)) :=
  match pool with
  | [] => (none, [(k, [])])
  | (k', q) :: rest =>
    if k' = k then
      match q with
      | [] => (none, (k', []) :: rest)
      | b :: q' => (some b, (k', q') :: rest)
    else
      let (r, rest') := poolPop rest k
      (r, (k', q) :: rest')

/-- Embedding of `LdcTcpReceiver::push_buffer` (ldc_tcp_socket.rs lines 145-147):
`self.buffers.entry(stream_id).or_default().push_back(buffer)`. -/
def LdcTcpReceiver.push_buffer (rc : LdcTcpReceiver) (stream_id : Nat)
    (buffer : List Nat) : LdcTcpReceiver :=
  let rec go : List (Nat × List (List Nat)) → List (Nat × List (List Nat))
    | [] => [(stream_id, [buffer])]
    | (k', q) :: rest => if k' = stream_id then (k', q ++ [buffer]) :: rest
                         else (k', q) :: go rest
  ⟨rc.valid, go rc.buffers⟩

/-- Result of `LdcTcpReceiver::recv`: returned value, validity flag after the call,
buffer pool after the call, unconsumed remainder of the incoming stream, events
consumed. -/
structure RecvResult where
  out : Except ErrKind (Option (Nat × List Nat))
  valid : Bool
  buffers : List (Nat × List (List Nat))
  rest : List Nat
  used : Nat
deriving DecidableEq, Repr

/-- Embedding of `LdcTcpReceiver::recv` (ldc_tcp_socket.rs lines 152-185).  If
invalid, returns `Ok(None)` with no I/O.  Otherwise reads the 9-byte header with
`interruptible_read_all` (interruption marks the receiver invalid and returns
`Ok(None)`); decodes `stream_id = prefix[0]` and the little-endian length from
`prefix[1..9]`; pops a pooled buffer for that stream id (or a fresh default) and
resizes it to the declared length; reads the payload the same way; on success
returns `Ok(Some((stream_id, buffer)))`. -/
def LdcTcpReceiver.recv (rc : LdcTcpReceiver) (stream : List Nat)
    (evs : List IoEvent) : Outcome RecvResult :=
  if !rc.valid then .result ⟨.ok none, rc.valid, rc.buffers, stream, 0⟩
  else
    match interruptible_read_all (List.replicate 9 0) stream evs with
    | none => .starved
    | some r1 =>
      match r1.out with
      | .error e => .result ⟨.error e, rc.valid, rc.buffers, r1.rest, r1.used⟩
      | .ok false => .result ⟨.ok none, false, rc.buffers, r1.rest, r1.used⟩
      | .ok true =>
        let stream_id := r1.buffer.getD 0 0
        let buffer_size := leBytesToNat (r1.buffer.drop 1)
        let pp := poolPop rc.buffers stream_id
        let buffer := vecResize (pp.1.getD []) buffer_size
        match interruptible_read_all buffer r1.rest (evs.drop r1.used) with
        | none => .starved
        | some r2 =>
          match r2.out with
          | .error e => .result ⟨.error e, rc.valid, pp.2, r2.rest, r1.used + r2.used⟩
          | .ok false => .result ⟨.ok none, false, pp.2, r2.rest, r1.used + r2.used⟩
          | .ok true =>
            .result ⟨.ok (some (stream_id, r2.buffer)), true, pp.2, r2.rest,
                     r1.used + r2.used⟩

/-- Bytes of `ALVR_NAME`.  Modelled from the spec: `ALVR_NAME` lives in the
`alvr_common` crate, which is not under `src/`; the spec (§6) and the comment in
`packets.rs` fix it as the 4-byte ASCII marker "ALVR". -/
def alvrNameBytes : List Nat := [65, 76, 86, 82]

/-- Handshake packet built by the client `HandshakeSocket::new`
(client/src/connection_utils.rs lines 20-22): a 24-byte zero array
(`HANDSHAKE_PACKET_SIZE_BYTES`, from `alvr_sockets` which is not under `src/`;
the spec fixes it as 24), with `packet[0..ALVR_NAME.len()]` overwritten by the
name bytes and `packet[16..24]` by the little-endian protocol id.  `none` models
a panic of either subslice copy. -/
def clientHandshakePacket (protocolId : Nat) : Option (List Nat) :=
  match setRange (List.replicate 24 0) 0 alvrNameBytes.length alvrNameBytes with
  | none => none
  | some p1 => setRange p1 16 24 (u64ToLeBytes protocolId)

/-- State of the client `HandshakeSocket`: the fixed packet built at construction
(the UDP socket itself carries no further state the model needs). -/
structure ClientHandshakeSocket where
  packet : List Nat
deriving DecidableEq, Repr

/-- Embedding of the client `HandshakeSocket::broadcast`
(client/src/connection_utils.rs lines 27-32): sends `self.packet` to the broadcast
address through `&self`; returns the outbound datagram and the unchanged state. -/
def ClientHandshakeSocket.broadcast (s : ClientHandshakeSocket) :
    List Nat × ClientHandshakeSocket :=
  (s.packet, s)

/-- Iterated `broadcast`: the list of outbound datagrams of `n` successive calls
and the final socket state. -/
def ClientHandshakeSocket.broadcastN (s : ClientHandshakeSocket) :
    Nat → List (List Nat) × ClientHandshakeSocket
  | 0 => ([], s)
  | n + 1 =>
    let (d, s') := s.broadcast
    let (ds, s'') := s'.broadcastN n
    (d :: ds, s'')

/-- Construction of `expected_name` in the server `HandshakeSocket::new`
(server/src/connection_utils.rs lines 21-22): `expected_name = [0; 16]` followed by
`expected_name.copy_from_slice(ALVR_NAME.as_bytes())`, a 4-byte source copied over
the whole 16-byte array; `none` models the `copy_from_slice` length-mismatch panic. -/
def serverExpectedName : Option (List Nat) :=
  copyFromSlice (List.replicate 16 0) alvrNameBytes

/-- Classification events the server listener can emit
(`EventType::ClientFoundWrongVersion` with its three message shapes). -/
inductive HandshakeEvent where
  | wrongVersionIds (expected found : Nat)
  | wrongVersionV14toV18
  | wrongVersionV11orPrevious
deriving DecidableEq, Repr

/-- Modelled from the spec: the expected 16-byte name field of the server listener —
the application name null-padded to 16 bytes (§4.3, §6).  The source construction
of this field panics (see `serverExpectedName`), so the intended value is taken
from the spec. -/
def expectedNameField : List Nat := alvrNameBytes ++ List.replicate 12 0

/-- Modelled from the spec: classification of one received datagram by the server
listener.  The classification chain in the source `recv_non_blocking`
(server/src/connection_utils.rs lines 43-69) does not compile — the name comparison
references an undefined variable `name`, the two legacy branches produce `()` where
a `StrResult<Option<IpAddr>>` is required, and the second legacy test uses `=` in
place of `==` — so the classification follows spec §4.3/§6/§9: a 24-byte datagram
with matching name field is accepted when its little-endian protocol id matches
the local one and otherwise yields one wrong-version event with both ids; the two
legacy signatures (4 zero bytes, little-endian 8-byte 4, "ALVR"; and the single
byte 1 followed by "ALVR") each yield their generation's event; anything else is
ignored.  `buffer` is the 24-byte receive array, `size` the datagram length. -/
def classifyDatagram (localProtocolId size : Nat) (buffer : List Nat)
    (address : Nat) : Option Nat × List HandshakeEvent :=
  if size = 24 ∧ buffer.take 16 = expectedNameField then
    let received := leBytesToNat ((buffer.drop 16).take 8)
    if received = localProtocolId then (some address, [])
    else (none, [.wrongVersionIds localProtocolId received])
  else if buffer.take 4 = List.replicate 4 0 ∧ (buffer.drop 4).take 8 = u64ToLeBytes 4 ∧
      (buffer.drop 12).take 4 = alvrNameBytes then
    (none, [.wrongVersionV14toV18])
  else if buffer.take 5 = 1 :: alvrNameBytes then
    (none, [.wrongVersionV11orPrevious])
  else
    (none, [])

/-- Embedding of the server `HandshakeSocket::recv_non_blocking`: the receive-error
dispatch of the source (server/src/connection_utils.rs lines 32-41: a would-block
error from `recv_from` returns `Ok(None)`, any other error kind is returned as an
error) followed, on a received datagram, by the spec-modelled classification.  The
argument is the result of the underlying `recv_from`: an error kind, or
`((size, address), buffer)`. -/
def recv_non_blocking (localProtocolId : Nat)
    (r : Except ErrKind ((Nat × Nat) × List Nat)) :
    Except ErrKind (Option Nat) × List HandshakeEvent :=
  match r with
  | .error e => if e = .wouldBlock then (.ok none, []) else (.error e, [])
  | .ok ((size, address), buffer) =>
    let c := classifyDatagram localProtocolId size buffer address
    (.ok c.1, c.2)

/-- C1: the claimed round trip is impossible on the code as written: a valid sender's
`send(7, [1,2,3])` panics while building the 9-byte header (the source copies the
8-byte length over the whole 9-byte array with `copy_from_slice`, which panics on
length mismatch), so `send` never returns `Ok(true)` and writes no bytes; the
receiver half, by contrast, does recover stream id and payload byte-for-byte from
a frame laid out as the spec's wire format (1-byte id, 8-byte little-endian
length, payload), delivered by complete reads. -/
theorem c1_roundtrip_code_bug :
    LdcTcpSender.send ⟨true⟩ 7 [1, 2, 3] [⟨.ok 9, true⟩, ⟨.ok 3, true⟩] =
        .panicked ∧
    LdcTcpReceiver.recv ⟨true, []⟩ (7 :: u64ToLeBytes 3 ++ [1, 2, 3])
        [⟨.ok 9, true⟩, ⟨.ok 3, true⟩] =
      .result ⟨.ok (some (7, [1, 2, 3])), true, [(7, [])], [], 2⟩ := by
  exact ⟨by decide, by decide⟩

/-- C2: for a valid sender, `send(1, [2,3])` panics during header construction:
`prefix.copy_from_slice(&(buffer.len() as u64).to_le_bytes())` copies an 8-byte
source over the 9-byte `prefix` array, and `copy_from_slice` panics when the
lengths differ; no header or payload byte is ever written. -/
theorem c2_header_construction_panics :
    LdcTcpSender.send ⟨true⟩ 1 [2, 3] [⟨.ok 9, true⟩, ⟨.ok 2, true⟩] =
        .panicked ∧
    (u64ToLeBytes 2).length = 8 ∧
    (1 :: List.replicate 8 0 : List Nat).length = 9 := by
  exact ⟨by decide, by decide, by decide⟩

/-- C3: the receiver does not resume partial reads at the first unread position: the
source narrows the window with `&mut buffer[..size]`, so a resumed read overwrites
the bytes already read.  First run: a frame with declared length 2 and payload
`[5,6]`, whose payload arrives in two 1-byte reads, yields buffer `[6,0]` instead
of `[5,6]`.  Second run: a 9-byte header for stream id 3 and length 0 delivered in
two 4-byte reads makes `recv` return after consuming only 8 stream bytes (two of
the ten offered bytes remain unread although the header is 9 bytes and the
declared length 0), and report stream id 0 instead of 3. -/
theorem c3_recv_consumption_code_bug :
    LdcTcpReceiver.recv ⟨true, []⟩ (0 :: u64ToLeBytes 2 ++ [5, 6])
        [⟨.ok 9, true⟩, ⟨.ok 1, true⟩, ⟨.ok 1, true⟩] =
      .result ⟨.ok (some (0, [6, 0])), true, [(0, [])], [], 3⟩ ∧
    [6, 0] ≠ [5, 6] ∧
    LdcTcpReceiver.recv ⟨true, []⟩ (3 :: u64ToLeBytes 0 ++ [0])
        [⟨.ok 4, true⟩, ⟨.ok 4, true⟩, ⟨.ok 0, true⟩] =
      .result ⟨.ok (some (0, [])), true, [(0, [])], [0, 0], 3⟩ ∧
    (3 :: u64ToLeBytes 0 ++ [0] : List Nat).length - [0, 0].length = 8 ∧
    (8 : Nat) ≠ 9 + 0 ∧
    (0 : Nat) ≠ 3 := by
  refine ⟨by decide, by decide, by decide, by decide, by decide, by decide⟩

/-- C5: spec-modelled classification of a well-formed 24-byte datagram whose first 16
bytes equal the expected name field (the source `recv_non_blocking` does not
compile, see `classifyDatagram`): with the local protocol id 7, a datagram carrying
little-endian id 7 is accepted with the sender address and no event, and one
carrying id 9 yields no address and exactly one wrong-version event holding both
ids. -/
theorem c5_classification_matching_datagram :
    classifyDatagram 7 24 (expectedNameField ++ u64ToLeBytes 7) 99 = (some 99, []) ∧
    classifyDatagram 7 24 (expectedNameField ++ u64ToLeBytes 9) 99 =
      (none, [.wrongVersionIds 7 9]) ∧
    recv_non_blocking 7 (.ok ((24, 99), expectedNameField ++ u64ToLeBytes 7)) =
      (.ok (some 99), []) ∧
    recv_non_blocking 7 (.ok ((24, 99), expectedNameField ++ u64ToLeBytes 9)) =
      (.ok none, [.wrongVersionIds 7 9]) := by
  exact ⟨by decide, by decide, by decide, by decide⟩

/-- C6: spec-modelled classification of legacy and unrecognised datagrams (the source
`recv_non_blocking` does not compile, see `classifyDatagram`): the first legacy
signature (4 zero bytes, little-endian 8-byte 4, "ALVR") yields only the
v14-to-v18 event and no address; the second (byte 1 then "ALVR") yields only the
v11-or-previous event and no address; a datagram matching no known layout yields
no address and no event. -/
theorem c6_classification_legacy_and_noise :
    classifyDatagram 7 16
        (List.replicate 4 0 ++ u64ToLeBytes 4 ++ alvrNameBytes ++ List.replicate 8 0)
        99 =
      (none, [.wrongVersionV14toV18]) ∧
    classifyDatagram 7 5 (1 :: alvrNameBytes ++ List.replicate 19 0) 99 =
      (none, [.wrongVersionV11orPrevious]) ∧
    classifyDatagram 7 24 (List.replicate 24 7) 99 = (none, []) := by
  exact ⟨by decide, by decide, by decide⟩

/-- C7, counterexample: the claim says an underlying error of kind
interrupted-system-call is never surfaced to the caller of `try_recv`, but the
handshake receive dispatch of `recv_non_blocking` (which checks only for
would-block) returns an interrupted error to the caller as `Err`. -/
theorem c7_interrupted_surfaced_counterexample :
    recv_non_blocking 7 (.error .interrupted) = (.error .interrupted, []) ∧
    (.error .interrupted : Except ErrKind (Option Nat)) ≠ .ok none := by
  exact ⟨by decide, by decide⟩

/-- C9: the server listener's `expected_name` construction panics: the source copies
`ALVR_NAME.as_bytes()` (4 bytes) over the whole 16-byte zero array with
`copy_from_slice`, which panics on length mismatch, instead of null-padding the
name to 16 bytes. -/
theorem c9_expected_name_panics :
    serverExpectedName = none ∧ alvrNameBytes.length = 4 ∧ (4 : Nat) < 16 := by
  exact ⟨by decide, by decide, by decide⟩

/-- C10: the cancellation flag is checked only after the underlying I/O call, so a
single write that transfers the complete 3-byte buffer followed by an observed
cleared flag makes `interruptible_write_all` return `Ok(false)` although every
byte was written; the send-level consequence (sender marked invalid) can never be
exercised, because `send` panics in header construction before reaching the write
loop. -/
theorem c10_flag_checked_after_io :
    interruptible_write_all [10, 20, 30] [⟨.ok 3, false⟩] =
        some ⟨.ok false, [10, 20, 30], 1⟩ ∧
    LdcTcpSender.send ⟨true⟩ 0 [10, 20, 30] [⟨.ok 9, false⟩] = .panicked := by
  exact ⟨by decide, by decide⟩

/-- Helper: a schedule carrying no error of kind `other` never makes the write loop
return an error (transient errors are retried or, on a cleared flag, folded into
`Ok(false)`). -/
theorem interruptible_write_all_no_fatal :
    ∀ (evs : List IoEvent) (buffer : List Nat) (r : WriteResult),
      (∀ e ∈ evs, e.res ≠ IoRes.err ErrKind.other) →
      interruptible_write_all buffer evs = some r → ∀ k, r.out ≠ Except.error k := by
  intro evs
  induction evs with
  | nil => intro buffer r _ h; cases h
  | cons e evs ih =>
    intro buffer r hno h k hk
    simp only [interruptible_write_all] at h
    split at h
    · split at h
      · cases h; simp at hk
      · split at h
        · cases h; simp at hk
        · split at h
          · cases h
          · next r' heq =>
            cases h
            exact ih _ r' (fun e' he' => hno e' (List.mem_cons_of_mem _ he')) heq k hk
    · next kk heqk =>
      split at h
      · cases h; simp at hk
      · split at h
        · split at h
          · cases h
          · next r' heq =>
            cases h
            exact ih _ r' (fun e' he' => hno e' (List.mem_cons_of_mem _ he')) heq k hk
        · next hnot =>
          refine hno e (List.mem_cons_self _ _) ?_
          rw [heqk]
          cases kk with
          | wouldBlock => exact absurd (Or.inl rfl) hnot
          | interrupted => exact absurd (Or.inr rfl) hnot
          | other => rfl

/-- Helper: the read-loop analogue of `interruptible_write_all_no_fatal`. -/
theorem readLoop_no_fatal :
    ∀ (evs : List IoEvent) (buffer : List Nat) (w : Nat) (stream : List Nat)
      (r : ReadResult),
      (∀ e ∈ evs, e.res ≠ IoRes.err ErrKind.other) →
      readLoop buffer w stream evs = some r → ∀ k, r.out ≠ Except.error k := by
  intro evs
  induction evs with
  | nil => intro buffer w stream r _ h; cases h
  | cons e evs ih =>
    intro buffer w stream r hno h k hk
    simp only [readLoop] at h
    split at h
    · split at h
      · cases h; simp at hk
      · split at h
        · cases h; simp at hk
        · split at h
          · cases h
          · next r' heq =>
            cases h
            exact ih _ _ _ r' (fun e' he' => hno e' (List.mem_cons_of_mem _ he')) heq k hk
    · next kk heqk =>
      split at h
      · cases h; simp at hk
      · split at h
        · split at h
          · cases h
          · next r' heq =>
            cases h
            exact ih _ _ _ r' (fun e' he' => hno e' (List.mem_cons_of_mem _ he')) heq k hk
        · next hnot =>
          refine hno e (List.mem_cons_self _ _) ?_
          rw [heqk]
          cases kk with
          | wouldBlock => exact absurd (Or.inl rfl) hnot
          | interrupted => exact absurd (Or.inr rfl) hnot
          | other => rfl

/-- Helper: iterated `broadcast` yields one copy of the stored packet per call and
leaves the socket state unchanged. -/
theorem broadcastN_eq_replicate (s : ClientHandshakeSocket) :
    ∀ n, s.broadcastN n = (List.replicate n s.packet, s)
  | 0 => rfl
  | n + 1 => by
    simp [ClientHandshakeSocket.broadcastN, ClientHandshakeSocket.broadcast,
          broadcastN_eq_replicate s n, List.replicate]

/-- C4: validity lifecycle of the two stream halves.  An invalid receiver's `recv`
returns `Ok(None)` at once, consuming no I/O events and leaving state and stream
untouched; an invalid sender's `send` returns `Ok(false)` at once with no I/O; a
`recv` that starts valid and returns `Ok(None)` (only the cancellation
interruption produces this from a valid receiver) has marked the receiver
invalid; and no `send`, `recv` or `push_buffer` ever turns an invalid half valid
again.  The sender-side interruption path itself is unreachable in this code
because `send` panics in header construction first (see C2). -/
theorem c4_validity_lifecycle :
    (∀ pool stream evs, LdcTcpReceiver.recv ⟨false, pool⟩ stream evs =
        .result ⟨.ok none, false, pool, stream, 0⟩) ∧
    (∀ stream_id buffer evs, LdcTcpSender.send ⟨false⟩ stream_id buffer evs =
        .result ⟨.ok false, false, [], 0⟩) ∧
    (∀ pool stream evs r, LdcTcpReceiver.recv ⟨true, pool⟩ stream evs = .result r →
        r.out = .ok none → r.valid = false) ∧
    (∀ stream_id buffer evs r, LdcTcpSender.send ⟨false⟩ stream_id buffer evs =
        .result r → r.valid = false) ∧
    (∀ pool stream evs r, LdcTcpReceiver.recv ⟨false, pool⟩ stream evs =
        .result r → r.valid = false) ∧
    (∀ rc stream_id buffer,
        (LdcTcpReceiver.push_buffer rc stream_id buffer).valid = rc.valid) := by
  refine ⟨fun pool stream evs => rfl, fun stream_id buffer evs => rfl, ?_, ?_, ?_,
          fun rc stream_id buffer => rfl⟩
  · intro pool stream evs r h hout
    unfold LdcTcpReceiver.recv at h
    simp only [Bool.not_true] at h
    rw [if_neg (by simp)] at h
    split at h
    · cases h
    · next r1 heq =>
      split at h
      · next e heq2 =>
        cases h
        simp at hout
      · cases h
        rfl
      · split at h
        · cases h
        · next r2 heq3 =>
          split at h
          · next e heq4 =>
            cases h
            simp at hout
          · cases h
            rfl
          · cases h
            simp at hout
  · intro stream_id buffer evs r h
    rw [show LdcTcpSender.send ⟨false⟩ stream_id buffer evs =
          .result ⟨.ok false, false, [], 0⟩ from rfl] at h
    cases h
    rfl
  · intro pool stream evs r h
    rw [show LdcTcpReceiver.recv ⟨false, pool⟩ stream evs =
          .result ⟨.ok none, false, pool, stream, 0⟩ from rfl] at h
    cases h
    rfl

/-- Witness for C4: concrete instances — invalid halves no-op without I/O, and a
read interrupted by a cleared flag after a 4-byte partial read leaves the
receiver invalid. -/
theorem c4_validity_lifecycle_witness :
    LdcTcpReceiver.recv ⟨false, [(1, [[5]])]⟩ [1, 2] [⟨.ok 2, true⟩] =
        .result ⟨.ok none, false, [(1, [[5]])], [1, 2], 0⟩ ∧
    LdcTcpSender.send ⟨false⟩ 1 [2] [⟨.ok 1, true⟩] =
        .result ⟨.ok false, false, [], 0⟩ ∧
    (⟨.ok none, false, [], [9], 1⟩ : RecvResult).valid = false ∧
    (⟨.ok false, false, [], 0⟩ : SendResult).valid = false ∧
    (⟨.ok none, false, [(3, [])], [7], 0⟩ : RecvResult).valid = false ∧
    (LdcTcpReceiver.push_buffer ⟨false, []⟩ 2 [7]).valid = false :=
  ⟨c4_validity_lifecycle.1 [(1, [[5]])] [1, 2] [⟨.ok 2, true⟩],
   c4_validity_lifecycle.2.1 1 [2] [⟨.ok 1, true⟩],
   c4_validity_lifecycle.2.2.1 [] [9, 9, 9, 9, 9] [⟨.ok 4, false⟩]
     ⟨.ok none, false, [], [9], 1⟩ (by decide) (by decide),
   c4_validity_lifecycle.2.2.2.1 0 [] [] ⟨.ok false, false, [], 0⟩ (by decide),
   c4_validity_lifecycle.2.2.2.2.1 [(3, [])] [7] [] ⟨.ok none, false, [(3, [])], [7], 0⟩
     (by decide),
   c4_validity_lifecycle.2.2.2.2.2 ⟨false, []⟩ 2 [7]⟩

/-- C7 (amended): error taxonomy.  In the stream loops a schedule free of
other-kind errors never produces `Err` (would-block and interrupted are retried,
or folded into `Ok(false)` when the flag is observed cleared); a fatal error with
the flag still set is propagated as `Err`, but is folded into `Ok(false)` when
the flag is observed cleared at the post-call check; a transient error with the
flag set retries the same operation.  The non-blocking handshake receive maps a
would-block error to `Ok(None)` and every other kind — interrupted included — to
`Err`. -/
theorem c7_error_taxonomy_amended :
    (∀ evs buffer r, (∀ e ∈ evs, e.res ≠ IoRes.err ErrKind.other) →
        interruptible_write_all buffer evs = some r → ∀ k, r.out ≠ Except.error k) ∧
    (∀ evs buffer stream r, (∀ e ∈ evs, e.res ≠ IoRes.err ErrKind.other) →
        interruptible_read_all buffer stream evs = some r →
        ∀ k, r.out ≠ Except.error k) ∧
    (∀ buffer rest, interruptible_write_all buffer (⟨.err .other, true⟩ :: rest) =
        some ⟨.error .other, [], 1⟩) ∧
    (∀ buffer stream rest,
        interruptible_read_all buffer stream (⟨.err .other, true⟩ :: rest) =
          some ⟨.error .other, buffer, stream, 1⟩) ∧
    (∀ buffer rest, interruptible_write_all buffer (⟨.err .other, false⟩ :: rest) =
        some ⟨.ok false, [], 1⟩) ∧
    (∀ buffer k rest, k ≠ ErrKind.other →
        interruptible_write_all buffer (⟨.err k, true⟩ :: rest) =
          match interruptible_write_all buffer rest with
          | none => none
          | some r => some ⟨r.out, r.written, r.used + 1⟩) ∧
    (∀ localId, recv_non_blocking localId (.error .wouldBlock) = (.ok none, [])) ∧
    (∀ localId k, k ≠ ErrKind.wouldBlock →
        recv_non_blocking localId (.error k) = (.error k, [])) := by
  refine ⟨interruptible_write_all_no_fatal, ?_, fun buffer rest => rfl,
          fun buffer stream rest => rfl, fun buffer rest => rfl, ?_,
          fun localId => rfl, ?_⟩
  · intro evs buffer stream r hno h
    exact readLoop_no_fatal evs buffer buffer.length stream r hno h
  · intro buffer k rest hk
    cases k with
    | wouldBlock => rfl
    | interrupted => rfl
    | other => exact absurd rfl hk
  · intro localId k hk
    cases k with
    | wouldBlock => exact absurd rfl hk
    | interrupted => rfl
    | other => rfl

/-- Witness for C7 (amended): concrete instances of each clause — a would-block
retry followed by a complete transfer yields no error on either loop; a fatal
first event is propagated when the flag is set and folded into `Ok(false)` when
cleared; a would-block retry consumes one extra event; the handshake receive
returns `Ok(None)` on would-block and `Err` on interrupted. -/
theorem c7_error_taxonomy_amended_witness :
    (⟨.ok true, [4, 5], 2⟩ : WriteResult).out ≠ Except.error ErrKind.other ∧
    (⟨.ok true, [4, 5], [], 1⟩ : ReadResult).out ≠ Except.error ErrKind.other ∧
    interruptible_write_all [8] [⟨.err .other, true⟩] = some ⟨.error .other, [], 1⟩ ∧
    interruptible_read_all [0] [8] [⟨.err .other, true⟩] =
      some ⟨.error .other, [0], [8], 1⟩ ∧
    interruptible_write_all [8] [⟨.err .other, false⟩] = some ⟨.ok false, [], 1⟩ ∧
    interruptible_write_all [8] [⟨.err .wouldBlock, true⟩, ⟨.ok 1, true⟩] =
      some ⟨.ok true, [8], 2⟩ ∧
    recv_non_blocking 99 (.error .wouldBlock) = (.ok none, []) ∧
    recv_non_blocking 99 (.error .interrupted) = (.error .interrupted, []) :=
  ⟨c7_error_taxonomy_amended.1 [⟨.err .wouldBlock, true⟩, ⟨.ok 2, true⟩] [4, 5]
     ⟨.ok true, [4, 5], 2⟩ (by decide) (by decide) ErrKind.other,
   c7_error_taxonomy_amended.2.1 [⟨.ok 2, true⟩] [0, 0] [4, 5]
     ⟨.ok true, [4, 5], [], 1⟩ (by decide) (by decide) ErrKind.other,
   c7_error_taxonomy_amended.2.2.1 [8] [],
   c7_error_taxonomy_amended.2.2.2.1 [0] [8] [],
   c7_error_taxonomy_amended.2.2.2.2.1 [8] [],
   (c7_error_taxonomy_amended.2.2.2.2.2.1 [8] .wouldBlock [⟨.ok 1, true⟩]
     (by decide)).trans (by decide),
   c7_error_taxonomy_amended.2.2.2.2.2.2.1 99,
   c7_error_taxonomy_amended.2.2.2.2.2.2.2 99 .interrupted (by decide)⟩

/-- C8: the client handshake packet is exactly 24 bytes — the ASCII application
name null-padded in bytes 0..16 and the protocol id little-endian in bytes
16..24 — and its construction does not panic; `broadcast` sends the stored packet
and leaves the socket state unchanged, so `n` calls produce `n` identical
outbound datagrams. -/
theorem c8_client_handshake_packet (protocolId n : Nat) :
    clientHandshakePacket protocolId =
      some (alvrNameBytes ++ List.replicate 12 0 ++ u64ToLeBytes protocolId) ∧
    (alvrNameBytes ++ List.replicate 12 0 ++ u64ToLeBytes protocolId).length = 24 ∧
    (alvrNameBytes ++ List.replicate 12 0 ++ u64ToLeBytes protocolId).take 16 =
      alvrNameBytes ++ List.replicate 12 0 ∧
    (alvrNameBytes ++ List.replicate 12 0 ++ u64ToLeBytes protocolId).drop 16 =
      u64ToLeBytes protocolId ∧
    ClientHandshakeSocket.broadcastN
        ⟨alvrNameBytes ++ List.replicate 12 0 ++ u64ToLeBytes protocolId⟩ n =
      (List.replicate n (alvrNameBytes ++ List.replicate 12 0 ++ u64ToLeBytes protocolId),
       ⟨alvrNameBytes ++ List.replicate 12 0 ++ u64ToLeBytes protocolId⟩) := by
  refine ⟨?_, ?_, ?_, ?_, broadcastN_eq_replicate _ n⟩
  · simp [clientHandshakePacket, setRange, alvrNameBytes, u64ToLeBytes]
  · simp [alvrNameBytes, u64ToLeBytes]
  · simp [alvrNameBytes, u64ToLeBytes]
  · simp [alvrNameBytes, u64ToLeBytes]
